import Mathlib

/-!
Verification of the style-aware tree builder in `src/main.ts` of the
dom-sim repository.  The TypeScript core is shallowly embedded: pure
functions become Lean functions, the browser host primitives
(selector matching, computed-style reading, the HTML/CSS parsers) are
modelled as function-valued fields of the data model, and the
exception-based control flow of the rule extractor becomes `Except`.
-/

namespace DomSim

/-- Embeds the `MetricLevel` union type `"low" | "med" | "high"`. -/
inductive MetricLevel where
  | low
  | med
  | high
deriving DecidableEq, Repr

/-- Embeds the `LAYOUT_PROPS` constant (the six recognized layout
properties); `LAYOUT_PROP_SET.has` becomes list membership. -/
def LAYOUT_PROPS : List String :=
  ["display", "position", "flex-direction", "justify-content", "align-items", "gap"]

/-- Models `String.prototype.startsWith` on the character lists of the
two strings. -/
def strStartsWith (s pre : String) : Bool :=
  pre.data.isPrefixOf s.data

/-- Models `String.prototype.endsWith` on the character lists of the
two strings. -/
def strEndsWith (s suf : String) : Bool :=
  suf.data.isSuffixOf s.data

/-- Boolean substring test on lists: does `needle` occur as a
contiguous run inside the second list? -/
def listIsInfixOf (needle : List Char) : List Char → Bool
  | [] => needle.isEmpty
  | c :: rest => needle.isPrefixOf (c :: rest) || listIsInfixOf needle rest

/-- Models `String.prototype.includes` (substring test) on the
character lists of the two strings. -/
def strIncludes (s sub : String) : Bool :=
  listIsInfixOf sub.data s.data

/-- Models the character class of the `\s` regex used by
`normalizeTextNodeValue` (the ASCII whitespace characters). -/
def isJsSpace (c : Char) : Bool :=
  c = ' ' || c = '\t' || c = '\n' || c = '\x0b' || c = '\x0c' || c = '\r'

/-- Collapses each run of consecutive spaces to a single space;
together with `isJsSpace` mapping this models `replace(/\s+/g, " ")`. -/
def squeezeSpaces : List Char → List Char
  | [] => []
  | [c] => [c]
  | a :: b :: rest =>
    if a = ' ' && b = ' ' then squeezeSpaces (b :: rest)
    else a :: squeezeSpaces (b :: rest)

/-- Drops leading space characters from a character list (one side of
`String.prototype.trim` after whitespace has been canonicalized). -/
def dropLeadingSpaces (cs : List Char) : List Char :=
  cs.dropWhile (fun c => c = ' ')

/-- Models `String.prototype.trim`: drop whitespace characters from
both ends. -/
def strTrim (s : String) : String :=
  String.mk (((s.data.dropWhile isJsSpace).reverse.dropWhile isJsSpace).reverse)

/-- Embeds `normalizeTextNodeValue`:
`value.replace(/\s+/g, " ").trim()`. -/
def normalizeTextNodeValue (value : String) : String :=
  let collapsed := squeezeSpaces (value.data.map (fun c => if isJsSpace c then ' ' else c))
  String.mk (dropLeadingSpaces ((dropLeadingSpaces collapsed.reverse).reverse))

/-- Embeds `classifyPropsCount`. -/
def classifyPropsCount (propsCount : Nat) : MetricLevel :=
  if propsCount ≤ 8 then .low
  else if propsCount ≤ 18 then .med
  else .high

/-- Embeds `normalizePropertyGroup`. -/
def normalizePropertyGroup (prop : String) : String :=
  if prop = "" then prop
  else if strStartsWith prop "padding-" then "padding"
  else if strStartsWith prop "margin-" then "margin"
  else if prop == "border-radius" || (strStartsWith prop "border-" && strEndsWith prop "radius") then
    "border-radius"
  else if prop == "border" || strStartsWith prop "border-" then "border"
  else if prop == "background" || strStartsWith prop "background-" then "background"
  else if prop == "font" || strStartsWith prop "font-" then "font"
  else if prop == "transition" || strStartsWith prop "transition-" then "transition"
  else if prop == "animation" || strStartsWith prop "animation-" then "animation"
  else prop

/-- Embeds a `CSSStyleRule` as consumed by `getCssMatchStats`: its
`selectorText` plus its declaration block `rule.style`, modelled as the
sequence of property names `decl.item(i)` for `i < decl.length` (an
empty string models a falsy item, which the source skips). -/
structure RuleM where
  selectorText : String
  decls : List String
deriving DecidableEq, Repr

/-- Embeds the data of one live DOM element as used by the core: the
host primitives `element.matches` (which may throw on an invalid
selector, modelled by `none`), the inline `element.style` declaration
items, and the values `getComputedStyle(element).getPropertyValue`
would return for it. -/
structure ElementData where
  tagName : String
  id : String
  classList : List String
  styleDecls : List String
  matchesSel : String → Option Bool
  computed : String → String

/-- Embeds a live DOM node (`element.childNodes` entries): an element
with its children, a text node, or any other node kind (comment etc.),
which the tree builder ignores. -/
inductive DomNode where
  | element (data : ElementData) (children : List DomNode)
  | text (textContent : String)
  | other

/-- Embeds `StyleContext`.  The `win` handle of the source is only
used through `win.getComputedStyle(element)`, which this embedding
models as the per-element oracle `ElementData.computed`, so only the
extracted rules remain. -/
structure StyleContext where
  rules : List RuleM

/-- Embeds `CssMatchStats`.  The two JavaScript `Set`s are modelled as
insertion-ordered duplicate-free lists (`setAdd` below). -/
structure CssMatchStats where
  rulesMatched : Nat
  longhandsCount : Nat
  propGroups : List String
  declaredLayoutProps : List String
  inlinePresent : Bool
deriving DecidableEq, Repr

/-- Models `Set.prototype.add` on an insertion-ordered list. -/
def setAdd (s : List String) (x : String) : List String :=
  if x ∈ s then s else s ++ [x]

/-- The declaration-processing accumulator shared by the two textually
identical inner loops of `getCssMatchStats` (over a matched rule block
and over the inline style). -/
structure DeclAcc where
  longhandsCount : Nat
  propGroups : List String
  declaredLayoutProps : List String
deriving DecidableEq, Repr

/-- Initial declaration accumulator. -/
def declAcc0 : DeclAcc := ⟨0, [], []⟩

/-- One iteration of the declaration loop of `getCssMatchStats`:
`if (!prop) continue; longhandsCount += 1; propGroups.add(...);
if (LAYOUT_PROP_SET.has(prop)) declaredLayoutProps.add(prop)`. -/
def foldDecl (acc : DeclAcc) (prop : String) : DeclAcc :=
  if prop = "" then acc
  else
    { longhandsCount := acc.longhandsCount + 1
      propGroups := setAdd acc.propGroups (normalizePropertyGroup prop)
      declaredLayoutProps :=
        if prop ∈ LAYOUT_PROPS then setAdd acc.declaredLayoutProps prop
        else acc.declaredLayoutProps }

/-- The full declaration loop of `getCssMatchStats` over one
declaration block. -/
def foldDecls (acc : DeclAcc) (decls : List String) : DeclAcc :=
  decls.foldl foldDecl acc

/-- One iteration of the rule loop of `getCssMatchStats`: try
`element.matches(rule.selectorText)` (a thrown selector error, modelled
by `none`, means `continue`), and on a match increment `rulesMatched`
and process the declaration block. -/
def ruleStep (element : ElementData) (acc : Nat × DeclAcc) (rule : RuleM) : Nat × DeclAcc :=
  match element.matchesSel rule.selectorText with
  | none => acc
  | some false => acc
  | some true => (acc.1 + 1, foldDecls acc.2 rule.decls)

/-- Embeds `getCssMatchStats`. -/
def getCssMatchStats (element : ElementData) (ctx : Option StyleContext) : CssMatchStats :=
  match ctx with
  | none =>
    { rulesMatched := 0
      longhandsCount := 0
      propGroups := []
      declaredLayoutProps := []
      inlinePresent := false }
  | some ctx =>
    let r := ctx.rules.foldl (ruleStep element) (0, declAcc0)
    let inlinePresent := !element.styleDecls.isEmpty
    let acc := if !element.styleDecls.isEmpty then foldDecls r.2 element.styleDecls else r.2
    { rulesMatched := r.1
      longhandsCount := acc.longhandsCount
      propGroups := acc.propGroups
      declaredLayoutProps := acc.declaredLayoutProps
      inlinePresent := inlinePresent }

/-- Embeds `LayoutChip`. -/
structure LayoutChip where
  prop : String
  value : String
  title : String
  declared : Bool
deriving DecidableEq, Repr

/-- Embeds `LayoutSummary`. -/
structure LayoutSummary where
  chips : List LayoutChip
  rulesCount : Nat
  propsCount : Nat
  longhandsCount : Nat
  propsLevel : MetricLevel
deriving DecidableEq, Repr

/-- Embeds the `pushIf` closure of `buildLayoutSummary`: append a chip
for `prop` iff `shouldShow`. -/
def pushIf (getValue : String → String) (hasDecl : String → Bool)
    (chips : List LayoutChip) (prop : String) (shouldShow : Bool) : List LayoutChip :=
  if shouldShow then
    chips ++ [{ prop := prop
                value := getValue prop
                title := prop ++ ": " ++ getValue prop
                declared := hasDecl prop }]
  else chips

/-- Embeds `buildLayoutSummary`.  `getValue` is
`computed.getPropertyValue(prop).trim()`, modelled through the
per-element computed-style oracle. -/
def buildLayoutSummary (element : ElementData) (ctx : Option StyleContext) :
    Option LayoutSummary :=
  match ctx with
  | none => none
  | some ctx =>
    let stats := getCssMatchStats element (some ctx)
    let rulesCount := stats.rulesMatched + (if stats.inlinePresent then 1 else 0)
    let propsCount := stats.propGroups.length
    let longhandsCount := stats.longhandsCount
    let propsLevel := classifyPropsCount propsCount
    let getValue := fun (prop : String) => strTrim (element.computed prop)
    let hasDecl := fun (prop : String) => stats.declaredLayoutProps.contains prop
    let displayValue := getValue "display"
    let positionValue := getValue "position"
    let chips : List LayoutChip :=
      [{ prop := "display"
         value := displayValue
         title := "display: " ++ displayValue
         declared := hasDecl "display" },
       { prop := "position"
         value := positionValue
         title := "position: " ++ positionValue
         declared := hasDecl "position" }]
    let isFlex := strIncludes displayValue "flex"
    let isGrid := strIncludes displayValue "grid"
    let chips := pushIf getValue hasDecl chips "flex-direction" (isFlex || hasDecl "flex-direction")
    let chips := pushIf getValue hasDecl chips "justify-content" (isFlex || hasDecl "justify-content")
    let chips := pushIf getValue hasDecl chips "align-items" (isFlex || hasDecl "align-items")
    let chips := pushIf getValue hasDecl chips "gap" (isFlex || isGrid || hasDecl "gap")
    some { chips := chips
           rulesCount := rulesCount
           propsCount := propsCount
           longhandsCount := longhandsCount
           propsLevel := propsLevel }

/-- Embeds `TreeNode` (the serializable output tree). -/
inductive TreeNode where
  | element (tag : String) (id : String) (classes : List String)
      (children : List TreeNode) (layout : Option LayoutSummary)
  | text (t : String)

/-- The `layout` field of an output node (`none` on a text node). -/
def TreeNode.layout : TreeNode → Option LayoutSummary
  | .element _ _ _ _ l => l
  | .text _ => none

/-- The child list of an output node (`[]` on a text node). -/
def TreeNode.childList : TreeNode → List TreeNode
  | .element _ _ _ cs _ => cs
  | .text _ => []

/-- Embeds the `element.childNodes.forEach` body of `elementToTree`:
element children recurse, text children are kept when their normalized
content is non-empty, every other node kind is dropped.  The element
case inlines the construction performed by `elementToTree` (see
`childrenToTree_cons_element` below). -/
def childrenToTree (ctx : Option StyleContext) : List DomNode → List TreeNode
  | [] => []
  | DomNode.element d cs :: rest =>
    let kids := childrenToTree ctx cs
    TreeNode.element d.tagName.toLower d.id d.classList kids
        (if kids.length > 0 then buildLayoutSummary d ctx else none)
      :: childrenToTree ctx rest
  | DomNode.text content :: rest =>
    let normalized := normalizeTextNodeValue content
    if normalized ≠ "" then TreeNode.text normalized :: childrenToTree ctx rest
    else childrenToTree ctx rest
  | DomNode.other :: rest => childrenToTree ctx rest

/-- Embeds `elementToTree` on an element given by its data and its
live child nodes. -/
def elementToTree (data : ElementData) (children : List DomNode)
    (ctx : Option StyleContext) : TreeNode :=
  let kids := childrenToTree ctx children
  TreeNode.element data.tagName.toLower data.id data.classList kids
    (if kids.length > 0 then buildLayoutSummary data ctx else none)

/-- Embeds `countTreeNodes`.  The node counters of the source are
`(elements, texts)` pairs accumulated over a depth-first walk; the walk
over a worklist of nodes is a single recursive function here. -/
def countWalkList : List TreeNode → Nat × Nat
  | [] => (0, 0)
  | TreeNode.text _ :: rest =>
    let r := countWalkList rest
    (r.1, r.2 + 1)
  | TreeNode.element _ _ _ cs _ :: rest =>
    let a := countWalkList cs
    let b := countWalkList rest
    (1 + a.1 + b.1, a.2 + b.2)

/-- The element/text/total counts returned by `countTreeNodes`. -/
structure Counts where
  elements : Nat
  texts : Nat
  total : Nat
deriving DecidableEq, Repr

/-- Embeds `countTreeNodes`: one full traversal producing the element
count, the text count and their sum. -/
def countTreeNodes (node : TreeNode) : Counts :=
  let r := countWalkList [node]
  { elements := r.1, texts := r.2, total := r.1 + r.2 }

/-- Embeds the CSSOM rule tree walked by `extractActiveStyleRules`:
plain style rules, `@media` rules, `@supports` rules, other grouping
rules exposing `cssRules`, other leaf rules (skipped silently), and
`badRule`, which models a rule whose traversal throws (the exception
caught by the `try` around `walk(sheet.cssRules)`). -/
inductive CSSRuleM where
  | styleRule (rule : RuleM)
  | mediaRule (mediaText : String) (children : List CSSRuleM)
  | supportsRule (conditionText : String) (children : List CSSRuleM)
  | groupingRule (children : List CSSRuleM)
  | leafRule
  | badRule

/-- Embeds the window handle used by the rule extractor:
`win.matchMedia(text).matches`, plus the global `CSS.supports`
(`none` models `typeof CSS?.supports !== "function"`; a per-condition
`none` models `CSS.supports` throwing, which the source catches and
treats as supported). -/
structure WinM where
  matchMediaMatches : String → Bool
  cssSupports : Option (String → Option Bool)

/-- The `ok` flag computed for a `@supports` rule: evaluate
`CSS.supports(conditionText)` when available, failing open to `true`
when the capability is missing or evaluation throws. -/
def supportsOk (win : WinM) (conditionText : String) : Bool :=
  match win.cssSupports with
  | none => true
  | some f =>
    match f conditionText with
    | none => true
    | some b => b

/-- Embeds the recursive `walk` of `extractActiveStyleRules` over a
rule list; a thrown traversal error (`badRule`) propagates as
`Except.error`, discarding everything collected so far. -/
def walkRules (win : WinM) : List CSSRuleM → Except Unit (List RuleM)
  | [] => .ok []
  | CSSRuleM.styleRule rule :: rest => do
    let tl ← walkRules win rest
    .ok (rule :: tl)
  | CSSRuleM.mediaRule mediaText children :: rest =>
    if mediaText = "" || win.matchMediaMatches mediaText then do
      let here ← walkRules win children
      let tl ← walkRules win rest
      .ok (here ++ tl)
    else walkRules win rest
  | CSSRuleM.supportsRule conditionText children :: rest =>
    if supportsOk win conditionText then do
      let here ← walkRules win children
      let tl ← walkRules win rest
      .ok (here ++ tl)
    else walkRules win rest
  | CSSRuleM.groupingRule children :: rest => do
    let here ← walkRules win children
    let tl ← walkRules win rest
    .ok (here ++ tl)
  | CSSRuleM.leafRule :: rest => walkRules win rest
  | CSSRuleM.badRule :: _ => .error ()

/-- Embeds a `CSSStyleSheet` handle: its `cssRules` getter, which may
itself throw (e.g. a cross-origin security restriction), modelled as
`Except`. -/
structure CSSStyleSheetM where
  cssRules : Except Unit (List CSSRuleM)

/-- Embeds `extractActiveStyleRules`: a null sheet yields `[]`, and
any exception thrown while walking the rule tree is caught and also
yields `[]`. -/
def extractActiveStyleRules (sheet : Option CSSStyleSheetM) (win : WinM) : List RuleM :=
  match sheet with
  | none => []
  | some sheet =>
    match sheet.cssRules with
    | .error _ => []
    | .ok rules =>
      match walkRules win rules with
      | .error _ => []
      | .ok out => out

/-- The mutable state of the shared sandbox document that
`buildStyleContext` rewrites on every build: the style block content
(`styleEl.textContent`), the body attribute list, and the body markup
(`body.innerHTML`). -/
structure SandboxState where
  styleContent : String
  bodyAttrs : List (String × String)
  bodyMarkup : String

/-- Models `removeAttribute` applied to each name in `names`. -/
def removeAttrs (attrs : List (String × String)) (names : List String) :
    List (String × String) :=
  attrs.filter (fun a => !names.contains a.1)

/-- Models one `setAttribute(name, value)` call: update in place when
the attribute exists, append otherwise. -/
def setAttr (attrs : List (String × String)) (name value : String) :
    List (String × String) :=
  if attrs.any (fun a => a.1 = name) then
    attrs.map (fun a => if a.1 = name then (name, value) else a)
  else attrs ++ [(name, value)]

/-- The host collaborators of the build pipeline (section 6 of the
spec), plus whether the memoized `ensureSandboxEnv` promise resolved:
the HTML fragment parser (body attributes and body markup of the
parsed input), the CSS parser behind `styleEl.sheet`, the sandbox
window, the live body realized from the injected state (with computed
styles settled after the animation-frame wait), and the `DOMParser`
fallback body used by `renderTree` when the sandbox fails. -/
structure Host where
  envOk : Bool
  parseBodyAttrs : String → List (String × String)
  parseBodyMarkup : String → String
  parseCss : String → Option CSSStyleSheetM
  win : WinM
  liveBody : String → List (String × String) → String → ElementData × List DomNode
  parseFallbackBody : String → ElementData × List DomNode

/-- Embeds `buildStyleContext` as a transition on the shared sandbox
state: replace the style block content with `css`, remove every
current body attribute and set the parsed input body attributes,
replace the body markup, then return the live body root and the
extracted rules. -/
def buildStyleContext (host : Host) (s : SandboxState) (html css : String) :
    SandboxState × ((ElementData × List DomNode) × StyleContext) :=
  let s1 : SandboxState := { s with styleContent := css }
  let cleared := removeAttrs s1.bodyAttrs (s1.bodyAttrs.map Prod.fst)
  let newAttrs := (host.parseBodyAttrs html).foldl (fun a p => setAttr a p.1 p.2) cleared
  let s2 : SandboxState := { s1 with bodyAttrs := newAttrs, bodyMarkup := host.parseBodyMarkup html }
  let root := host.liveBody s2.styleContent s2.bodyAttrs s2.bodyMarkup
  let rules := extractActiveStyleRules (host.parseCss s2.styleContent) host.win
  (s2, (root, { rules := rules }))

/-- The output of one `renderTree` build: the serializable root node
and the node counts shown in the meta line. -/
structure RenderOutput where
  rootNode : TreeNode
  counts : Counts

/-- Embeds `renderTree` up to the DOM rendering of the result: build
the style context (or, when the sandbox is unavailable, fall back to a
plain parse with a null context), convert the live body to a
`TreeNode`, and count the nodes. -/
def renderTree (host : Host) (s : SandboxState) (html css : String) :
    SandboxState × RenderOutput :=
  if host.envOk then
    let built := buildStyleContext host s html css
    let rootNode := elementToTree built.2.1.1 built.2.1.2 (some built.2.2)
    (built.1, { rootNode := rootNode, counts := countTreeNodes rootNode })
  else
    let root := host.parseFallbackBody html
    let rootNode := elementToTree root.1 root.2 none
    (s, { rootNode := rootNode, counts := countTreeNodes rootNode })

/-! ## Spec-side definitions and concrete inputs for the claims -/

/-- The amended property-grouping map, following the spec text with
the correction the code forces: the `border`/`background`/`font`/
`transition`/`animation` groups capture the exact shorthand name or a
hyphenated longhand of it (`X` itself or names prefixed `X-`), not
every name merely beginning with `X`. -/
def normalizePropertyGroupAmended (prop : String) : String :=
  if strStartsWith prop "padding-" then "padding"
  else if strStartsWith prop "margin-" then "margin"
  else if strStartsWith prop "border-" && strEndsWith prop "radius" then "border-radius"
  else if prop = "border" ∨ strStartsWith prop "border-" = true then "border"
  else if prop = "background" ∨ strStartsWith prop "background-" = true then "background"
  else if prop = "font" ∨ strStartsWith prop "font-" = true then "font"
  else if prop = "transition" ∨ strStartsWith prop "transition-" = true then "transition"
  else if prop = "animation" ∨ strStartsWith prop "animation-" = true then "animation"
  else prop

/-- The live `div.a.b` element of the sample input, as the host HTML
parser produces it inside the sandbox (tag names of live HTML elements
are uppercase; no id, no inline style; no rule matches under empty
CSS, and computed styles are irrelevant to counting). -/
def divSample : ElementData :=
  { tagName := "DIV", id := "", classList := ["a", "b"], styleDecls := []
    matchesSel := fun _ => some false, computed := fun _ => "" }

/-- A live `p` element of the sample input. -/
def pSample : ElementData :=
  { tagName := "P", id := "", classList := [], styleDecls := []
    matchesSel := fun _ => some false, computed := fun _ => "" }

/-- The live sandbox `body` element after injecting the sample input. -/
def bodySample : ElementData :=
  { tagName := "BODY", id := "", classList := [], styleDecls := []
    matchesSel := fun _ => some false, computed := fun _ => "" }

/-- The child nodes of the sandbox body for the sample input
`<div class="a b"><p>Hi</p><p>There</p></div>`: one div holding two
p elements, each holding one text node. -/
def bodyKidsSample : List DomNode :=
  [DomNode.element divSample
    [DomNode.element pSample [DomNode.text "Hi"],
     DomNode.element pSample [DomNode.text "There"]]]

/-- The sample HTML input of the claim. -/
def htmlSample : String := "<div class=\"a b\"><p>Hi</p><p>There</p></div>"

/-- The host collaborators for the sample build: the sandbox
initializes, the parsed input has a bare body whose markup is the
input string, and the empty CSS text parses to a stylesheet with no
rules. -/
def hostSample : Host :=
  { envOk := true
    parseBodyAttrs := fun _ => []
    parseBodyMarkup := fun h => h
    parseCss := fun _ => some { cssRules := .ok [] }
    win := { matchMediaMatches := fun _ => true, cssSupports := none }
    liveBody := fun _ _ _ => (bodySample, bodyKidsSample)
    parseFallbackBody := fun _ => (bodySample, bodyKidsSample) }

/-- The initial sandbox state (fresh empty style block and body). -/
def sandboxStateSample : SandboxState :=
  { styleContent := "", bodyAttrs := [], bodyMarkup := "" }

/-- A concrete element for the C7 witness: it matches the selector
`div` and its `matches` throws on the selector `:::broken`. -/
def elementC7 : ElementData :=
  { tagName := "DIV", id := "", classList := [], styleDecls := []
    matchesSel := fun s => if s = ":::broken" then none else some true
    computed := fun _ => "" }

/-- A rule with invalid selector text (its match throws). -/
def brokenRuleC7 : RuleM := { selectorText := ":::broken", decls := ["color"] }

/-- A valid rule that matches `elementC7`. -/
def validRuleC7 : RuleM := { selectorText := "div", decls := ["color"] }

/-- The failure condition of claim C8: the stylesheet handle is null,
or reading its rule list throws, or walking the rule tree throws. -/
def sheetNullOrTraversalThrows (win : WinM) (sheet : Option CSSStyleSheetM) : Prop :=
  match sheet with
  | none => True
  | some s =>
    (∃ e, s.cssRules = .error e) ∨
      (∃ rules e, s.cssRules = .ok rules ∧ walkRules win rules = .error e)

/-- A stylesheet whose rule tree contains a style rule followed by a
rule whose traversal throws: the collected style rule is discarded. -/
def badSheetC8 : CSSStyleSheetM :=
  { cssRules := .ok [CSSRuleM.styleRule validRuleC7, CSSRuleM.badRule] }

/-- A concrete window for the C8 witness. -/
def winC8 : WinM := { matchMediaMatches := fun _ => true, cssSupports := none }

/-- The declaration-accumulator view of a `CssMatchStats` record. -/
def declAccOf (s : CssMatchStats) : DeclAcc :=
  { longhandsCount := s.longhandsCount
    propGroups := s.propGroups
    declaredLayoutProps := s.declaredLayoutProps }

/-- The Boolean selector-match test: the rule matched (as opposed to
not matching or its match throwing). -/
def ruleMatches (element : ElementData) (rule : RuleM) : Bool :=
  element.matchesSel rule.selectorText == some true

/-- The concatenated declaration stream of the rules whose selector
matches the element, in source order. -/
def matchedDeclStream (element : ElementData) (rules : List RuleM) : List String :=
  ((rules.filter (ruleMatches element)).map RuleM.decls).flatten

/-- A concrete element with a matching rule and an inline style for
the C5 witness. -/
def elementC5 : ElementData :=
  { tagName := "DIV", id := "", classList := [], styleDecls := ["color", "display"]
    matchesSel := fun s => some (s = "div")
    computed := fun _ => "block" }

/-- A concrete context for the C5 witness: one matching rule and one
non-matching rule. -/
def ctxC5 : StyleContext :=
  { rules := [{ selectorText := "div", decls := ["padding-top", "padding-left"] },
              { selectorText := "span", decls := ["margin-top"] }] }

/-- The layout summary the builder produces for `elementC5`/`ctxC5`. -/
def summaryC5 : LayoutSummary :=
  { chips := [{ prop := "display", value := "block", title := "display: block", declared := true },
              { prop := "position", value := "block", title := "position: block",
                declared := false }]
    rulesCount := 2
    propsCount := 3
    longhandsCount := 4
    propsLevel := MetricLevel.low }

/-- The invariant carried by the declaration accumulator: every
declared layout property is one of the six recognized layout
properties, and the group set is never larger than the longhand
counter. -/
def declAccInvariant (acc : DeclAcc) : Prop :=
  acc.declaredLayoutProps.all (fun p => LAYOUT_PROPS.contains p) = true ∧
    acc.propGroups.length ≤ acc.longhandsCount

/-- The chip obligations of claim C6 for one element, context and
summary: `display` and `position` chips are always present, carrying
the trimmed computed value and a `declared` flag that reflects
membership in the declared-layout-properties set; a `flex-direction`,
`justify-content` or `align-items` chip is present exactly when the
computed display value contains `flex` or that property was itself
declared; a `gap` chip is present exactly when the computed display
contains `flex` or `grid` or `gap` was itself declared. -/
def chipObligations (element : ElementData) (ctx : StyleContext) (ls : LayoutSummary) : Prop :=
  (LayoutChip.mk "display" (strTrim (element.computed "display"))
      ("display: " ++ strTrim (element.computed "display"))
      ((getCssMatchStats element (some ctx)).declaredLayoutProps.contains "display")
    ∈ ls.chips) ∧
  (LayoutChip.mk "position" (strTrim (element.computed "position"))
      ("position: " ++ strTrim (element.computed "position"))
      ((getCssMatchStats element (some ctx)).declaredLayoutProps.contains "position")
    ∈ ls.chips) ∧
  ((∃ c ∈ ls.chips, c.prop = "flex-direction") ↔
    (strIncludes (strTrim (element.computed "display")) "flex" = true ∨
      (getCssMatchStats element (some ctx)).declaredLayoutProps.contains "flex-direction"
        = true)) ∧
  ((∃ c ∈ ls.chips, c.prop = "justify-content") ↔
    (strIncludes (strTrim (element.computed "display")) "flex" = true ∨
      (getCssMatchStats element (some ctx)).declaredLayoutProps.contains "justify-content"
        = true)) ∧
  ((∃ c ∈ ls.chips, c.prop = "align-items") ↔
    (strIncludes (strTrim (element.computed "display")) "flex" = true ∨
      (getCssMatchStats element (some ctx)).declaredLayoutProps.contains "align-items"
        = true)) ∧
  ((∃ c ∈ ls.chips, c.prop = "gap") ↔
    (strIncludes (strTrim (element.computed "display")) "flex" = true ∨
      strIncludes (strTrim (element.computed "display")) "grid" = true ∨
      (getCssMatchStats element (some ctx)).declaredLayoutProps.contains "gap" = true))

/-- A concrete flex element for the C6 witness: computed display is
`flex`, nothing is explicitly declared. -/
def elementC6 : ElementData :=
  { tagName := "DIV", id := "", classList := [], styleDecls := []
    matchesSel := fun _ => some false
    computed := fun p => if p = "display" then "flex" else "row" }

/-- An empty-rule context for the C6 witness. -/
def ctxC6 : StyleContext := { rules := [] }

/-- The summary the builder produces for `elementC6` under `ctxC6`:
all five flex-related chips appear with `declared = false`. -/
def summaryC6 : LayoutSummary :=
  { chips :=
      [{ prop := "display", value := "flex", title := "display: flex", declared := false },
       { prop := "position", value := "row", title := "position: row", declared := false },
       { prop := "flex-direction", value := "row", title := "flex-direction: row",
         declared := false },
       { prop := "justify-content", value := "row", title := "justify-content: row",
         declared := false },
       { prop := "align-items", value := "row", title := "align-items: row",
         declared := false },
       { prop := "gap", value := "row", title := "gap: row", declared := false }]
    rulesCount := 0
    propsCount := 0
    longhandsCount := 0
    propsLevel := MetricLevel.low }

/-! ## Property-group normalization (claim C3) -/

/-- C3 (counterexample): the claim maps any property name beginning
with `border` to `border`, but the code maps `borderline` — which does
begin with `border` — to itself, because it only groups the exact name
`border` or names prefixed `border-`. -/
theorem C3_borderline_counterexample :
    strStartsWith "borderline" "border" = true ∧
      normalizePropertyGroup "borderline" ≠ "border" := by
  decide

/-- C3 (amended): the property-group normalization maps names prefixed
`padding-` to `padding`, names prefixed `margin-` to `margin`,
names prefixed `border-` that end in `radius` (including
`border-radius` itself) to `border-radius`, the name `border` and any
other name prefixed `border-` to `border`, the names `background`,
`font`, `transition`, `animation` and names prefixed with their
hyphenated forms to their group label, and every other name to
itself; in particular `padding-top` and `padding-left` map to
`padding`, `border-top-left-radius` to `border-radius`, and `color`
to itself. -/
theorem C3_normalizePropertyGroup_grouping :
    (∀ prop : String, normalizePropertyGroup prop = normalizePropertyGroupAmended prop) ∧
      normalizePropertyGroup "padding-top" = "padding" ∧
      normalizePropertyGroup "padding-left" = "padding" ∧
      normalizePropertyGroup "border-top-left-radius" = "border-radius" ∧
      normalizePropertyGroup "color" = "color" := by
  refine ⟨fun prop => ?_, by decide, by decide, by decide, by decide⟩
  by_cases h0 : prop = ""
  · subst h0; decide
  · by_cases hbr : prop = "border-radius"
    · subst hbr; decide
    · unfold normalizePropertyGroup normalizePropertyGroupAmended
      rw [if_neg h0]
      have hb : (prop == "border-radius") = false := beq_eq_false_iff_ne.mpr hbr
      rw [hb]
      simp only [Bool.false_or, Bool.or_eq_true, beq_iff_eq]

/-! ## Props-count classification (claim C4) -/

/-- C4: the three-level classification returns `low` exactly when the
count is at most 8, `med` exactly when it is between 9 and 18
inclusive, and `high` exactly when it exceeds 18; in particular 8 is
`low`, 9 and 18 are `med`, and 19 is `high`. -/
theorem C4_classifyPropsCount_bounds :
    (∀ propsCount : Nat,
        (classifyPropsCount propsCount = MetricLevel.low ↔ propsCount ≤ 8) ∧
        (classifyPropsCount propsCount = MetricLevel.med ↔ 9 ≤ propsCount ∧ propsCount ≤ 18) ∧
        (classifyPropsCount propsCount = MetricLevel.high ↔ 18 < propsCount)) ∧
      classifyPropsCount 8 = MetricLevel.low ∧
      classifyPropsCount 9 = MetricLevel.med ∧
      classifyPropsCount 18 = MetricLevel.med ∧
      classifyPropsCount 19 = MetricLevel.high := by
  refine ⟨fun n => ?_, by decide, by decide, by decide, by decide⟩
  unfold classifyPropsCount
  split_ifs with h1 h2 <;> refine ⟨?_, ?_, ?_⟩ <;> simp <;> omega

/-! ## Layout-summary presence (claim C2) -/

/-- C2: for every element converted by the tree builder, the layout
summary of the resulting node is absent exactly when the element has
zero surviving children or the style context is null; equivalently it
is present exactly when there is at least one surviving child and the
context is non-null. -/
theorem C2_layout_presence (data : ElementData) (children : List DomNode)
    (ctx : Option StyleContext) :
    (elementToTree data children ctx).layout = none ↔
      (childrenToTree ctx children = [] ∨ ctx = none) := by
  cases ctx with
  | none =>
    simp only [elementToTree, TreeNode.layout, buildLayoutSummary, ite_self, or_true]
  | some c =>
    simp only [elementToTree, TreeNode.layout, buildLayoutSummary]
    constructor
    · intro h
      by_cases hk : childrenToTree (some c) children = []
      · exact Or.inl hk
      · rw [if_pos (by simpa [List.length_pos] using hk)] at h
        exact absurd h (Option.some_ne_none _)
    · intro h
      rcases h with h | h
      · rw [h]; simp
      · exact absurd h (Option.some_ne_none c)

/-! ## Node counts for the sample input (claim C1) -/

/-- C1 (counterexample): for the sample input with empty CSS the
build does not report elements=3, texts=2, total=5 — the traversal
root handed to `countTreeNodes` is the sandbox body itself, so the
body is counted as an element too. -/
theorem C1_sample_counts_counterexample :
    (renderTree hostSample sandboxStateSample htmlSample "").2.counts ≠
      Counts.mk 3 2 5 := by
  have h : (renderTree hostSample sandboxStateSample htmlSample "").2.counts =
      Counts.mk 4 2 6 := by
    simp [renderTree, hostSample, buildStyleContext, extractActiveStyleRules, walkRules,
      countTreeNodes, elementToTree, childrenToTree, countWalkList,
      bodyKidsSample, divSample, pSample, bodySample,
      normalizeTextNodeValue, squeezeSpaces, dropLeadingSpaces, isJsSpace]
  rw [h]
  decide

/-- C1 (amended): for the input HTML
`<div class="a b"><p>Hi</p><p>There</p></div>` with empty CSS, the
tree build counts exactly 4 element nodes (the body traversal root
plus the div and the two p elements), 2 text nodes, and a total of 6,
the total being the sum of the element and text counts over one full
traversal of the built tree. -/
theorem C1_sample_counts :
    (renderTree hostSample sandboxStateSample htmlSample "").2.counts =
      Counts.mk 4 2 6 := by
  simp [renderTree, hostSample, buildStyleContext, extractActiveStyleRules, walkRules,
    countTreeNodes, elementToTree, childrenToTree, countWalkList,
    bodyKidsSample, divSample, pSample, bodySample,
    normalizeTextNodeValue, squeezeSpaces, dropLeadingSpaces, isJsSpace]

/-! ## Per-rule selector errors (claim C7) -/

/-- C7: a rule whose selector match throws (modelled by
`matchesSel = none`) contributes nothing to any counter or set of the
match statistics — the statistics over the rule sequence with the bad
rule spliced in equal the statistics without it, and the computation
is total, so the remaining rules still contribute. -/
theorem C7_selector_error_is_skipped (element : ElementData) (pre post : List RuleM)
    (bad : RuleM) (h : element.matchesSel bad.selectorText = none) :
    getCssMatchStats element (some { rules := pre ++ bad :: post }) =
      getCssMatchStats element (some { rules := pre ++ post }) := by
  have hb : ∀ acc : Nat × DeclAcc, ruleStep element acc bad = acc := by
    intro acc
    unfold ruleStep
    rw [h]
  unfold getCssMatchStats
  simp only [List.foldl_append, List.foldl_cons, hb]

/-- C7 witness: concrete instance — dropping the broken rule from the
supplied CSS leaves the match statistics unchanged. -/
theorem C7_witness :
    getCssMatchStats elementC7 (some { rules := [validRuleC7] ++ brokenRuleC7 :: [] }) =
      getCssMatchStats elementC7 (some { rules := [validRuleC7] ++ [] }) :=
  C7_selector_error_is_skipped elementC7 [validRuleC7] [] brokenRuleC7 (by decide)

/-! ## Rule-extractor failure containment (claim C8) -/

/-- C8: whenever the stylesheet is null or walking its rule tree
throws for any reason, the extractor returns the empty rule sequence,
discarding anything collected, and never propagates the failure (the
embedding is a total function returning a plain list). -/
theorem C8_extract_contains_failure (win : WinM) (sheet : Option CSSStyleSheetM)
    (h : sheetNullOrTraversalThrows win sheet) :
    extractActiveStyleRules sheet win = [] := by
  cases sheet with
  | none => rfl
  | some s =>
    obtain ⟨cr⟩ := s
    rcases h with ⟨e, he⟩ | ⟨rules, e, hok, hw⟩
    · change cr = Except.error e at he
      subst he
      rfl
    · change cr = Except.ok rules at hok
      subst hok
      change (match walkRules win rules with
              | Except.error _ => []
              | Except.ok out => out) = []
      rw [hw]

/-- C8 witness: concrete instance — a traversal error inside the rule
tree yields the empty sequence even though a style rule had already
been collected. -/
theorem C8_witness : extractActiveStyleRules (some badSheetC8) winC8 = [] :=
  C8_extract_contains_failure winC8 (some badSheetC8)
    (Or.inr ⟨[CSSRuleM.styleRule validRuleC7, CSSRuleM.badRule], (), rfl,
      by simp only [walkRules]; rfl⟩)

/-! ## Match-statistics characterization (claims C5, C10) -/

/-- `foldDecls` processes an appended stream in two stages. -/
theorem foldDecls_append (acc : DeclAcc) (xs ys : List String) :
    foldDecls acc (xs ++ ys) = foldDecls (foldDecls acc xs) ys := by
  unfold foldDecls
  exact List.foldl_append _ _ _ _

/-- The matched-rule counter of the rule loop counts exactly the rules
whose selector matches. -/
theorem foldl_ruleStep_fst (element : ElementData) (rules : List RuleM)
    (n : Nat) (acc : DeclAcc) :
    (rules.foldl (ruleStep element) (n, acc)).1 =
      n + rules.countP (ruleMatches element) := by
  induction rules generalizing n acc with
  | nil => simp
  | cons r rest ih =>
    rw [List.foldl_cons, List.countP_cons]
    cases hm : element.matchesSel r.selectorText with
    | none => simp [ruleStep, ruleMatches, hm, ih]
    | some b =>
      cases b with
      | false => simp [ruleStep, ruleMatches, hm, ih]
      | true =>
        simp only [ruleStep, hm]
        rw [ih]
        simp [ruleMatches, hm]
        omega

/-- The declaration accumulator of the rule loop folds exactly the
declaration stream of the matching rules. -/
theorem foldl_ruleStep_snd (element : ElementData) (rules : List RuleM)
    (n : Nat) (acc : DeclAcc) :
    (rules.foldl (ruleStep element) (n, acc)).2 =
      foldDecls acc (matchedDeclStream element rules) := by
  induction rules generalizing n acc with
  | nil => simp [matchedDeclStream, foldDecls]
  | cons r rest ih =>
    rw [List.foldl_cons]
    unfold matchedDeclStream
    rw [List.filter_cons]
    cases hm : element.matchesSel r.selectorText with
    | none =>
      have : ruleMatches element r = false := by simp [ruleMatches, hm]
      simp only [this, Bool.false_eq_true, if_false, ruleStep, hm]
      exact ih n acc
    | some b =>
      cases b with
      | false =>
        have : ruleMatches element r = false := by simp [ruleMatches, hm]
        simp only [this, Bool.false_eq_true, if_false, ruleStep, hm]
        exact ih n acc
      | true =>
        have hr : ruleMatches element r = true := by simp [ruleMatches, hm]
        simp only [hr, if_true, List.map_cons, List.flatten_cons, ruleStep, hm]
        rw [foldDecls_append]
        exact ih (n + 1) (foldDecls acc r.decls)

/-- Closed form of `getCssMatchStats` under a non-null context: the
matched-rule count is the number of rules whose selector matches; the
longhand counter, group set and declared-layout set are the fold of
the matched declaration stream followed by the inline declarations
(processed by the same `foldDecl` loop); and the inline flag records a
non-empty inline style. -/
theorem getCssMatchStats_closed_form (element : ElementData) (ctx : StyleContext) :
    getCssMatchStats element (some ctx) =
      { rulesMatched := ctx.rules.countP (ruleMatches element)
        longhandsCount :=
          (foldDecls (foldDecls declAcc0 (matchedDeclStream element ctx.rules))
            element.styleDecls).longhandsCount
        propGroups :=
          (foldDecls (foldDecls declAcc0 (matchedDeclStream element ctx.rules))
            element.styleDecls).propGroups
        declaredLayoutProps :=
          (foldDecls (foldDecls declAcc0 (matchedDeclStream element ctx.rules))
            element.styleDecls).declaredLayoutProps
        inlinePresent := !element.styleDecls.isEmpty } := by
  unfold getCssMatchStats
  dsimp only
  rw [foldl_ruleStep_fst, foldl_ruleStep_snd]
  cases hd : element.styleDecls with
  | nil => simp [foldDecls]
  | cons p ps => simp

/-- C5: under any non-null context, the layout summary's `rulesCount`
equals the number of extracted rules whose selector matches the
element plus exactly one if the element has a non-empty inline style;
the inline declarations are folded into the longhand counter, the
group set and the declared-layout set by the same declaration loop as
a matched rule's declarations (appended after the matched stream),
and they never increment the matched-rule count. -/
theorem C5_rulesCount_and_inline_fold (element : ElementData) (ctx : StyleContext)
    (ls : LayoutSummary) (h : buildLayoutSummary element (some ctx) = some ls) :
    ls.rulesCount =
        ctx.rules.countP (ruleMatches element) +
          (if element.styleDecls.isEmpty then 0 else 1) ∧
      (getCssMatchStats element (some ctx)).rulesMatched =
        ctx.rules.countP (ruleMatches element) ∧
      declAccOf (getCssMatchStats element (some ctx)) =
        foldDecls (foldDecls declAcc0 (matchedDeclStream element ctx.rules))
          element.styleDecls ∧
      (getCssMatchStats element (some ctx)).inlinePresent = !element.styleDecls.isEmpty := by
  have hs := getCssMatchStats_closed_form element ctx
  have hr : ls.rulesCount =
      (getCssMatchStats element (some ctx)).rulesMatched +
        (if (getCssMatchStats element (some ctx)).inlinePresent then 1 else 0) := by
    have h' := h
    unfold buildLayoutSummary at h'
    simp only at h'
    cases h'
    rfl
  refine ⟨?_, ?_, ?_, ?_⟩
  · rw [hr, hs]
    cases hd : element.styleDecls with
    | nil => simp
    | cons p ps => simp
  · rw [hs]
  · rw [hs]
    rfl
  · rw [hs]

/-- C5 witness: concrete instance with one matched rule plus inline
style present, so `rulesCount = 1 + 1`. -/
theorem C5_witness :
    summaryC5.rulesCount =
        ctxC5.rules.countP (ruleMatches elementC5) +
          (if elementC5.styleDecls.isEmpty then 0 else 1) ∧
      (getCssMatchStats elementC5 (some ctxC5)).rulesMatched =
        ctxC5.rules.countP (ruleMatches elementC5) ∧
      declAccOf (getCssMatchStats elementC5 (some ctxC5)) =
        foldDecls (foldDecls declAcc0 (matchedDeclStream elementC5 ctxC5.rules))
          elementC5.styleDecls ∧
      (getCssMatchStats elementC5 (some ctxC5)).inlinePresent =
        !elementC5.styleDecls.isEmpty :=
  C5_rulesCount_and_inline_fold elementC5 ctxC5 summaryC5 rfl

/-- `setAdd` grows a set by at most one entry. -/
theorem setAdd_length_le (s : List String) (x : String) :
    (setAdd s x).length ≤ s.length + 1 := by
  unfold setAdd
  split_ifs <;> simp

/-- `setAdd` preserves a pointwise Boolean predicate when the new
entry satisfies it. -/
theorem setAdd_all {p : String → Bool} {s : List String} {x : String}
    (hs : s.all p = true) (hx : p x = true) : (setAdd s x).all p = true := by
  unfold setAdd
  split_ifs with h
  · exact hs
  · simp [List.all_append, hs, hx]

/-- One declaration step preserves the accumulator invariant. -/
theorem foldDecl_invariant {acc : DeclAcc} (h : declAccInvariant acc) (prop : String) :
    declAccInvariant (foldDecl acc prop) := by
  unfold foldDecl
  split_ifs with h0 hl
  · exact h
  · refine ⟨setAdd_all h.1 (by simpa using hl), ?_⟩
    calc (setAdd acc.propGroups (normalizePropertyGroup prop)).length
        ≤ acc.propGroups.length + 1 := setAdd_length_le _ _
      _ ≤ acc.longhandsCount + 1 := Nat.add_le_add_right h.2 1
  · refine ⟨h.1, ?_⟩
    calc (setAdd acc.propGroups (normalizePropertyGroup prop)).length
        ≤ acc.propGroups.length + 1 := setAdd_length_le _ _
      _ ≤ acc.longhandsCount + 1 := Nat.add_le_add_right h.2 1

/-- The declaration loop preserves the accumulator invariant. -/
theorem foldDecls_invariant {acc : DeclAcc} (h : declAccInvariant acc)
    (decls : List String) : declAccInvariant (foldDecls acc decls) := by
  induction decls generalizing acc with
  | nil => exact h
  | cons d rest ih => exact ih (foldDecl_invariant h d)

/-- C10: for every element and every context (including the null
one), the match statistics keep the declared-layout-properties set
inside the six recognized layout properties, and the size of the
normalized property-group set never exceeds the longhand counter. -/
theorem C10_stats_invariants (element : ElementData) (ctx : Option StyleContext) :
    (getCssMatchStats element ctx).declaredLayoutProps.all
        (fun p => LAYOUT_PROPS.contains p) = true ∧
      (getCssMatchStats element ctx).propGroups.length ≤
        (getCssMatchStats element ctx).longhandsCount := by
  cases ctx with
  | none => exact ⟨rfl, Nat.le.refl⟩
  | some c =>
    rw [getCssMatchStats_closed_form]
    have h0 : declAccInvariant declAcc0 := ⟨rfl, Nat.le.refl⟩
    exact foldDecls_invariant (foldDecls_invariant h0 _) _

/-! ## Chip emission (claim C6) -/

/-- `pushIf` never removes a chip. -/
theorem mem_pushIf (gv : String → String) (hd : String → Bool) (chips : List LayoutChip)
    (p : String) (b : Bool) {c : LayoutChip} (hc : c ∈ chips) :
    c ∈ pushIf gv hd chips p b := by
  unfold pushIf
  split_ifs
  · exact List.mem_append_left _ hc
  · exact hc

/-- A chip with a given property name is in the result of `pushIf`
exactly when it was already present or the pushed property is that
name and the condition held. -/
theorem exists_prop_pushIf (gv : String → String) (hd : String → Bool)
    (chips : List LayoutChip) (p : String) (b : Bool) (q : String) :
    (∃ c ∈ pushIf gv hd chips p b, c.prop = q) ↔
      ((∃ c ∈ chips, c.prop = q) ∨ (b = true ∧ p = q)) := by
  unfold pushIf
  cases b <;> simp [or_and_right, exists_or, exists_eq_left]

/-- C6: every layout summary the builder produces for an element under
a non-null context satisfies the chip obligations. -/
theorem C6_chip_emission (element : ElementData) (ctx : StyleContext) (ls : LayoutSummary)
    (h : buildLayoutSummary element (some ctx) = some ls) :
    chipObligations element ctx ls := by
  have h' := h
  unfold buildLayoutSummary at h'
  simp only at h'
  have hls := Option.some.inj h'
  subst hls
  unfold chipObligations
  dsimp only
  refine ⟨?_, ?_, ?_, ?_, ?_, ?_⟩
  · exact mem_pushIf _ _ _ _ _ (mem_pushIf _ _ _ _ _ (mem_pushIf _ _ _ _ _
      (mem_pushIf _ _ _ _ _ (List.mem_cons_self _ _))))
  · exact mem_pushIf _ _ _ _ _ (mem_pushIf _ _ _ _ _ (mem_pushIf _ _ _ _ _
      (mem_pushIf _ _ _ _ _ (List.mem_cons.mpr (Or.inr (List.mem_cons_self _ _))))))
  · rw [exists_prop_pushIf, exists_prop_pushIf, exists_prop_pushIf, exists_prop_pushIf]
    simp
  · rw [exists_prop_pushIf, exists_prop_pushIf, exists_prop_pushIf, exists_prop_pushIf]
    simp
  · rw [exists_prop_pushIf, exists_prop_pushIf, exists_prop_pushIf, exists_prop_pushIf]
    simp
  · rw [exists_prop_pushIf, exists_prop_pushIf, exists_prop_pushIf, exists_prop_pushIf]
    simp [or_assoc]

/-- C6 witness: concrete instance — the chip obligations hold for a
`display: flex` element with no declared layout properties. -/
theorem C6_witness : chipObligations elementC6 ctxC6 summaryC6 :=
  C6_chip_emission elementC6 ctxC6 summaryC6 rfl

/-! ## Deterministic rebuilds on the shared context (claim C9) -/

/-- Removing every one of its own attribute names leaves the body
attribute list empty: the attribute sync fully resets the shared
body. -/
theorem removeAttrs_self (attrs : List (String × String)) :
    removeAttrs attrs (attrs.map Prod.fst) = [] := by
  unfold removeAttrs
  rw [List.filter_eq_nil_iff]
  intro a ha
  have hm : a.1 ∈ attrs.map Prod.fst := List.mem_map_of_mem Prod.fst ha
  simp [hm]

/-- Because the style content, the body attributes and the body markup
are all replaced rather than merged, a build on the shared context
does not depend on the sandbox state it starts from. -/
theorem buildStyleContext_state_independent (host : Host) (s s' : SandboxState)
    (html css : String) :
    buildStyleContext host s html css = buildStyleContext host s' html css := by
  simp only [buildStyleContext]
  rw [removeAttrs_self, removeAttrs_self]

/-- C9: running the tree build twice in sequence on the same
`(html, css)` pair — the second run starting from the sandbox state
the first run leaves behind — yields identical outputs (the same
serializable tree, hence the same tags, ids, classes, text, children
and layout summaries, and the same counts), because each build fully
replaces the style content, body attributes and body markup of the
shared context. -/
theorem C9_rebuild_is_identical (host : Host) (s : SandboxState) (html css : String) :
    (renderTree host (renderTree host s html css).1 html css).2 =
      (renderTree host s html css).2 := by
  unfold renderTree
  cases he : host.envOk with
  | false => simp
  | true =>
    simp only [if_true]
    rw [buildStyleContext_state_independent host (buildStyleContext host s html css).1 s]

end DomSim
